import Mathlib

/-!
Verification of the content-analyzer scoring engine.

The definitions below are a shallow embedding of the two Python source
files `main.py` and `streamlit_app.py`.  Text is modelled as `List Char`,
scores as rationals, and the regular-expression matchers used by the
source (all of which are literal phrase patterns, word-boundary bounded
keyword searches, or fixed character-class scans) are implemented as
executable functions on character lists.
-/

set_option maxRecDepth 8000

namespace ContentAnalyzer

/-- Python `\w`: alphanumeric or underscore (ASCII, as used by the inputs). -/
def isWordChar (c : Char) : Bool := c.isAlphanum || c = '_'

/-- Python `\s`: ASCII whitespace characters. -/
def isSpaceChar (c : Char) : Bool :=
  c = ' ' || c = '\t' || c = '\n' || c = '\r' || c = '\x0b' || c = '\x0c'

/-- Sentence-terminating punctuation, character class `[.!?]`. -/
def isSentEnd (c : Char) : Bool := c = '.' || c = '!' || c = '?'

/-- Python `str.lower()` applied characterwise. -/
def lower (s : List Char) : List Char := s.map Char.toLower

/-- Shorthand turning a string literal into the character-list text model. -/
def pat (s : String) : List Char := s.toList

/-- Number of maximal `true`-runs in a boolean sequence, given the previous
value.  `countRunsAux false (s.map isWordChar)` is the number of `\b\w+\b`
matches, i.e. Python's word count. -/
def countRunsAux : Bool → List Bool → Nat
  | _, [] => 0
  | prev, b :: rest => (if b && !prev then 1 else 0) + countRunsAux b rest

/-- Number of word-boundary (`\b`) positions of a boolean word-char sequence,
given the previous value: positions where the word-char status toggles,
counting the final position when the text ends in a word character. -/
def countTogglesAux : Bool → List Bool → Nat
  | prev, [] => if prev then 1 else 0
  | prev, b :: rest => (if b != prev then 1 else 0) + countTogglesAux b rest

/-- `len(re.findall(r'\b\w+\b', content))`: the number of maximal runs of
word characters. -/
def wordCount (s : List Char) : Nat := countRunsAux false (s.map isWordChar)

/-- Worker for `wordsOf`, spending one unit of fuel per text position. -/
def wordsOfFuel : Nat → List Char → List (List Char)
  | 0, _ => []
  | _ + 1, [] => []
  | fuel + 1, c :: rest =>
    if isWordChar c then
      (c :: rest.takeWhile isWordChar) :: wordsOfFuel fuel (rest.dropWhile isWordChar)
    else
      wordsOfFuel fuel rest

/-- The word tokens themselves, `re.findall(r'\b\w+\b', content)`. -/
def wordsOf (s : List Char) : List (List Char) := wordsOfFuel s.length s

/-- Non-overlapping occurrences of a non-empty literal pattern, scanning left
to right with the given fuel (one unit per text position). -/
def countSubstrFuel (p : List Char) : Nat → List Char → Nat
  | 0, _ => 0
  | _ + 1, [] => 0
  | fuel + 1, c :: rest =>
    if p.isPrefixOf (c :: rest) then
      1 + countSubstrFuel p fuel ((c :: rest).drop p.length)
    else
      countSubstrFuel p fuel rest

/-- `len(re.findall(pattern, text))` for a literal pattern: non-overlapping
left-to-right matches; the empty pattern matches once at every position. -/
def countSubstr (p text : List Char) : Nat :=
  if p = [] then text.length + 1 else countSubstrFuel p text.length text

/-- Whether index `i` of `t` holds a word character (out of range counts as
a non-word position, as at the ends of a regex subject). -/
def wordishAt (t : List Char) (i : Nat) : Bool :=
  match t.get? i with
  | some c => isWordChar c
  | none => false

/-- Non-overlapping matches of `\b ++ p ++ \b` for non-empty `p`, scanning
with the word-char status of the previous character as state. -/
def countBoundedFuel (p : List Char) : Nat → Bool → List Char → Nat
  | 0, _, _ => 0
  | _ + 1, _, [] => 0
  | fuel + 1, prev, c :: rest =>
    if p.isPrefixOf (c :: rest) && (prev != isWordChar c)
        && (wordishAt p (p.length - 1) != wordishAt (c :: rest) p.length) then
      1 + countBoundedFuel p fuel (wordishAt p (p.length - 1)) ((c :: rest).drop p.length)
    else
      countBoundedFuel p fuel (isWordChar c) rest

/-- `len(re.findall(r'\b' + re.escape(kw) + r'\b', text))`.  For the empty
keyword the pattern is the zero-width `\b\b`, which matches once at every
word-boundary position. -/
def countBounded (kw text : List Char) : Nat :=
  if kw = [] then countTogglesAux false (text.map isWordChar)
  else countBoundedFuel kw text.length false text

/-- Python substring test `p in text` (empty pattern is always contained). -/
def containsSub (text p : List Char) : Bool := decide (0 < countSubstr p text)

/-- Python `str.strip()`: remove leading and trailing whitespace. -/
def strip (s : List Char) : List Char :=
  ((s.dropWhile isSpaceChar).reverse.dropWhile isSpaceChar).reverse

/-- Split a character list at every character satisfying `p`
(the separators are dropped; empty pieces are kept). -/
def splitP (p : Char → Bool) : List Char → List (List Char)
  | [] => [[]]
  | c :: rest =>
    if p c then [] :: splitP p rest
    else
      match splitP p rest with
      | h :: t => (c :: h) :: t
      | [] => [[c]]

/-- `re.split(r'[.!?]+', text)` followed by stripping and dropping empty
pieces, as in `calculate_reading_ease`. -/
def sentencesOf (t : List Char) : List (List Char) :=
  ((splitP isSentEnd t).map strip).filter (fun s => s ≠ [])

/-- `len(re.findall(r'[aeiouy]+', word.lower()))`: vowel-cluster runs. -/
def vowelRuns (w : List Char) : Nat :=
  countRunsAux false (w.map (fun c =>
    let l := c.toLower
    l = 'a' || l = 'e' || l = 'i' || l = 'o' || l = 'u' || l = 'y'))

/-- Python `text.split(sep)` for a non-empty literal separator, with fuel. -/
def splitOnSubFuel (sep : List Char) : Nat → List Char → List (List Char)
  | 0, t => [t]
  | _ + 1, [] => [[]]
  | fuel + 1, c :: rest =>
    if sep.isPrefixOf (c :: rest) then
      [] :: splitOnSubFuel sep fuel ((c :: rest).drop sep.length)
    else
      match splitOnSubFuel sep fuel rest with
      | h :: t => (c :: h) :: t
      | [] => [[c]]

/-- Python `text.split(sep)` for a non-empty literal separator. -/
def splitOnSub (sep t : List Char) : List (List Char) :=
  splitOnSubFuel sep t.length t

/-- `[p.strip() for p in content.split('\n\n') if p.strip()]`. -/
def paragraphsOf (content : List Char) : List (List Char) :=
  ((splitOnSub (pat "\n\n") content).map strip).filter (fun s => s ≠ [])

/-- Join word tokens with single spaces, `" ".join(words)`. -/
def joinSpace (ws : List (List Char)) : List Char :=
  (ws.intersperse [' ']).flatten

/-- Round to two decimal places, Python's `round(x, 2)` on the exactly
representable score values produced by the engine. -/
def round2 (q : ℚ) : ℚ := ((⌊q * 100 + 1 / 2⌋ : ℤ) : ℚ) / 100

/-- Finding severity, the `"type"` field of a finding in `main.py`. -/
inductive Severity
  | Good
  | Warn
  | Missing
deriving DecidableEq, Repr

/-- One tag per distinct finding site of `main.py`; the tag stands for the
finding's message text, which is presentational. -/
inductive Tag
  | expStrong
  | expSome
  | expMissing
  | trustFound
  | trustMissing
  | depthGood
  | depthShort
  | depthMid
  | densityOptimal
  | densitySub
  | densityHigh
  | densityLow
  | placementFound
  | noKeywordWarn
  | placementMissing
  | spamDetected
  | repetitiveHigh
  | aiDisclosedGood
  | aiNotDisclosed
  | aiCritical
  | totalFailure
deriving DecidableEq, Repr

/-- A finding of `main.py`: a severity together with the message site. -/
structure Finding where
  type : Severity
  tag : Tag
deriving DecidableEq, Repr

/-! Pattern tables of `main.py`. -/

def EEAT_EXPERIENCE_KEYWORDS : List (List Char) :=
  [pat "i tested", pat "in my experience", pat "my results", pat "proprietary data",
   pat "i found that", pat "after using", pat "i discovered", pat "original analysis"]

def EEAT_TRUST_KEYWORDS : List (List Char) :=
  [pat "author:", pat "byline", pat "credentials", pat "references", pat "cited",
   pat "disclaimer", pat "verified by", pat "published in"]

def SPAM_MANIPULATION_KEYWORDS : List (List Char) :=
  [pat "buy now", pat "best price", pat "click here", pat "unbeatable",
   pat "limited time offer", pat "money back guarantee", pat "must have"]

def AI_DISCLOSURE_KEYWORDS : List (List Char) :=
  [pat "ai-generated", pat "automated content", pat "large language model",
   pat "edited by ai"]

def REPETITIVE_PATTERNS : List (List Char) :=
  [pat "it is a great", pat "this is the best", pat "very great", pat "fantastic opportunity"]

/-! `check_eeat` of `main.py` (section I, max 20 + 15 + 15 = 50). -/

/-- `sum(len(re.findall(k, content_lower)) for k in EEAT_EXPERIENCE_KEYWORDS)`. -/
def experience_matches (cl : List Char) : Nat :=
  (EEAT_EXPERIENCE_KEYWORDS.map (fun k => countSubstr k cl)).sum

/-- Summed occurrences of the trust patterns. -/
def trust_matches (cl : List Char) : Nat :=
  (EEAT_TRUST_KEYWORDS.map (fun k => countSubstr k cl)).sum

/-- Step 1 of `check_eeat`: experience and originality, max 20 points. -/
def experienceStage (em : Nat) : ℚ × Finding :=
  if 5 ≤ em then (20, ⟨.Good, .expStrong⟩)
  else if 1 ≤ em then ((20 : ℚ) * 0.5, ⟨.Warn, .expSome⟩)
  else (0, ⟨.Missing, .expMissing⟩)

/-- Step 2 of `check_eeat`: trustworthiness and expertise, max 15 points. -/
def trustStage (cl : List Char) : ℚ × Finding :=
  if 3 ≤ trust_matches cl || containsSub cl (pat "author:") then
    (15, ⟨.Good, .trustFound⟩)
  else
    ((15 : ℚ) * 0.2, ⟨.Missing, .trustMissing⟩)

/-- Step 3 of `check_eeat`: utility and depth, max 15 points. -/
def utilityStage (wc : Nat) : ℚ × Finding :=
  if 800 ≤ wc then (15, ⟨.Good, .depthGood⟩)
  else if wc < 300 then ((15 : ℚ) * 0.1, ⟨.Missing, .depthShort⟩)
  else ((15 : ℚ) * 0.7, ⟨.Warn, .depthMid⟩)

/-- `check_eeat(content_lower, word_count)` of `main.py`. -/
def check_eeat (cl : List Char) (wc : Nat) : ℚ × List Finding :=
  (round2 ((experienceStage (experience_matches cl)).1 + (trustStage cl).1
      + (utilityStage wc).1),
   [(experienceStage (experience_matches cl)).2, (trustStage cl).2, (utilityStage wc).2])

/-! `check_keyword_relevance` of `main.py` (section II, max 25). -/

/-- `len(re.findall(r'\b' + re.escape(keyword_lower) + r'\b', content.lower()))`. -/
def keyword_matches (content target_keyword : List Char) : Nat :=
  countBounded (lower target_keyword) (lower content)

/-- `(keyword_matches / word_count) * 100 if word_count > 0 else 0`. -/
def densityMain (content target_keyword : List Char) (wc : Nat) : ℚ :=
  if 0 < wc then ((keyword_matches content target_keyword : ℚ) / (wc : ℚ)) * 100 else 0

/-- Density tiers of `check_keyword_relevance`, max 15 points. -/
def densityStage (d : ℚ) : ℚ × Finding :=
  if 1 ≤ d ∧ d ≤ 3 then (15, ⟨.Good, .densityOptimal⟩)
  else if (0.5 < d ∧ d < 1) ∨ (3 < d ∧ d ≤ 4) then (10, ⟨.Warn, .densitySub⟩)
  else if 4 < d then (0, ⟨.Missing, .densityHigh⟩)
  else (0, ⟨.Missing, .densityLow⟩)

/-- `" ".join(re.findall(r'\b\w+\b', content)[:100]).lower()`. -/
def first100Words (content : List Char) : List Char :=
  lower (joinSpace ((wordsOf content).take 100))

/-- Contextual placement tiers of `check_keyword_relevance`, max 10 points. -/
def placementStage (content target_keyword : List Char) : ℚ × Finding :=
  if lower target_keyword ≠ [] ∧
      containsSub (first100Words content) (lower target_keyword) then
    (10, ⟨.Good, .placementFound⟩)
  else if lower target_keyword = [] then
    (0, ⟨.Warn, .noKeywordWarn⟩)
  else
    (0, ⟨.Missing, .placementMissing⟩)

/-- `check_keyword_relevance(content, target_keyword, word_count)` of `main.py`. -/
def check_keyword_relevance (content target_keyword : List Char) (wc : Nat) :
    ℚ × List Finding :=
  (round2 ((densityStage (densityMain content target_keyword wc)).1
      + (placementStage content target_keyword).1),
   [(densityStage (densityMain content target_keyword wc)).2,
    (placementStage content target_keyword).2])

/-! `check_integrity_compliance` of `main.py` (section III, max 25). -/

/-- `sum(len(re.findall(k, content_lower)) for k in SPAM_MANIPULATION_KEYWORDS)`. -/
def spam_matches (cl : List Char) : Nat :=
  (SPAM_MANIPULATION_KEYWORDS.map (fun k => countSubstr k cl)).sum

/-- Summed occurrences of the repetitive/formulaic patterns. -/
def repetitive_matches (cl : List Char) : Nat :=
  (REPETITIVE_PATTERNS.map (fun k => countSubstr k cl)).sum

/-- `any(k in content_lower for k in AI_DISCLOSURE_KEYWORDS)`. -/
def is_ai_disclosed (cl : List Char) : Bool :=
  AI_DISCLOSURE_KEYWORDS.any (fun k => containsSub cl k)

/-- Penalty 1: spam/commercial language, `min(spam_matches * 5, 10)`. -/
def spamPenaltyMain (cl : List Char) : Nat :=
  if 0 < spam_matches cl then min (spam_matches cl * 5) 10 else 0

/-- Penalty 2: repetitive/formulaic patterns, 5 points when at least 3 matches. -/
def repPenaltyMain (cl : List Char) : Nat :=
  if 3 ≤ repetitive_matches cl then 5 else 0

/-- Penalty 3: the conditional AI-disclosure penalty, 10 points, applied only
when the running total penalty is already positive. -/
def aiPenaltyMain (cl : List Char) : Nat :=
  if is_ai_disclosed cl then 0
  else if 0 < spamPenaltyMain cl + repPenaltyMain cl then 10
  else 0

/-- The final value of `total_penalty` in `check_integrity_compliance`. -/
def totalPenaltyMain (cl : List Char) : Nat :=
  spamPenaltyMain cl + repPenaltyMain cl + aiPenaltyMain cl

/-- `check_integrity_compliance(content_lower)` of `main.py`: score starts at
25, penalties are subtracted in order, and the zero-out rule fires when the
total penalty reaches 20 points. -/
def check_integrity_compliance (cl : List Char) : ℚ × List Finding :=
  let fSpam : List Finding :=
    if 0 < spam_matches cl then [⟨.Missing, .spamDetected⟩] else []
  let fRep : List Finding :=
    if 3 ≤ repetitive_matches cl then [⟨.Missing, .repetitiveHigh⟩] else []
  let fAi : List Finding :=
    if is_ai_disclosed cl then [⟨.Good, .aiDisclosedGood⟩]
    else
      ⟨.Missing, .aiNotDisclosed⟩ ::
        (if 0 < spamPenaltyMain cl + repPenaltyMain cl then
          [⟨.Missing, .aiCritical⟩] else [])
  let score : ℚ := 25 - (totalPenaltyMain cl : ℚ)
  if 20 ≤ totalPenaltyMain cl then
    (max 0 (0 : ℚ), fSpam ++ fRep ++ fAi ++ [⟨.Missing, .totalFailure⟩])
  else
    (max 0 score, fSpam ++ fRep ++ fAi)

/-- One scored section of the `main.py` report. -/
structure MSection where
  score : ℚ
  maxScore : ℚ
  findings : List Finding
deriving DecidableEq, Repr

/-- The analysis report assembled by `analyze_content` in `main.py`. -/
structure ReportMain where
  word_count : Nat
  eeat : MSection
  keyword : MSection
  integrity : MSection
  total_score : ℚ
deriving DecidableEq, Repr

/-- Sum of the `WEIGHTS` table of `main.py`: the maximum total score. -/
def MAX_TOTAL_MAIN : ℚ := 20 + 15 + 15 + 25 + 25

/-- `analyze_content(content, target_keyword)` of `main.py`. -/
def analyze_content_main (content target_keyword : List Char) : ReportMain :=
  let cl := lower content
  let wc := wordCount content
  let e := check_eeat cl wc
  let k := check_keyword_relevance content target_keyword wc
  let i := check_integrity_compliance cl
  { word_count := wc
    eeat := ⟨e.1, 20 + 15 + 15, e.2⟩
    keyword := ⟨k.1, 25, k.2⟩
    integrity := ⟨i.1, 25, i.2⟩
    total_score := e.1 + k.1 + i.1 }

/-! Model of `streamlit_app.py`.  Names carry an `S` suffix where they would
clash with the `main.py` model. -/

/-- Pattern table `EEAT_TRUST_KEYWORDS` of `streamlit_app.py`. -/
def EEAT_TRUST_KEYWORDS_S : List (List Char) :=
  [pat "author:", pat "cited", pat "sources", pat "data suggests",
   pat "peer-reviewed", pat "methodology", pat "disclosure"]

/-- Pattern table `EEAT_EXPERIENCE_KEYWORDS` of `streamlit_app.py`. -/
def EEAT_EXPERIENCE_KEYWORDS_S : List (List Char) :=
  [pat "i found that", pat "after using", pat "i discovered", pat "original analysis",
   pat "hands-on", pat "i tested", pat "first-hand"]

/-- Pattern table `UTILITY_KEYWORDS` of `streamlit_app.py`. -/
def UTILITY_KEYWORDS_S : List (List Char) :=
  [pat "step-by-step", pat "how to", pat "tutorial", pat "actionable",
   pat "comprehensive", pat "guide", pat "in-depth"]

/-- Pattern table `SPAMMY_KEYWORDS` of `streamlit_app.py`. -/
def SPAMMY_KEYWORDS_S : List (List Char) :=
  [pat "buy now", pat "click here", pat "unbeatable deal", pat "limited time offer",
   pat "guaranteed", pat "cash back", pat "instant access"]

/-- Pattern table `REPETITIVE_PHRASES` of `streamlit_app.py`. -/
def REPETITIVE_PHRASES_S : List (List Char) :=
  [pat "very good article", pat "is a great product", pat "fantastic opportunity",
   pat "the best thing"]

/-- Pattern table `AI_DISCLOSURE_KEYWORDS` of `streamlit_app.py`. -/
def AI_DISCLOSURE_KEYWORDS_S : List (List Char) :=
  [pat "ai-generated", pat "ai writer", pat "automated content", pat "llm",
   pat "model-assisted"]

/-- Pattern table `FRESHNESS_KEYWORDS` of `streamlit_app.py`. -/
def FRESHNESS_KEYWORDS_S : List (List Char) :=
  [pat "updated:", pat "current as of", pat "latest research", pat "recent changes"]

/-- `EEAT_MAX_SCORE` of `streamlit_app.py`. -/
def EEAT_MAX_SCORE : ℚ := 40

/-- `KEYWORD_MAX_SCORE` of `streamlit_app.py`. -/
def KEYWORD_MAX_SCORE : ℚ := 20

/-- `INTEGRITY_MAX_SCORE` of `streamlit_app.py`. -/
def INTEGRITY_MAX_SCORE : ℚ := 20

/-- `TECH_MAX_SCORE` of `streamlit_app.py`. -/
def TECH_MAX_SCORE : ℚ := 20

/-- Cue and missing-signal tags for the `streamlit_app.py` integrity section;
each constructor stands for one appended message site. -/
inductive STag
  | spamCueFound (k : List Char)
  | cleanLanguage
  | spamMiss
  | repCueFound (k : List Char)
  | lowRepetition
  | repMiss
  | aiDisclosedCue
  | aiNeutral
  | aiTransparencyMiss
  | thinMiss
  | totalFailureCue
deriving DecidableEq, Repr

/-- `calculate_reading_ease(text)` of `streamlit_app.py`: the simplified
Flesch reading-ease score and its discrete grade. -/
def calculate_reading_ease (text : List Char) : ℚ × String :=
  let sentences := sentencesOf text
  let ws := wordsOf text
  let syllables := (ws.map vowelRuns).sum
  if ws = [] ∨ sentences = [] then (100, "N/A")
  else
    let ASL : ℚ := (ws.length : ℚ) / (sentences.length : ℚ)
    let ASW : ℚ := (syllables : ℚ) / (ws.length : ℚ)
    let score : ℚ := 206.835 - 1.015 * ASL - 84.6 * ASW
    let g0 := "Complex (Post-Graduate)"
    let g1 := if 60 ≤ score then "Fairly Easy (8th-9th Grade)" else g0
    let g2 := if 70 ≤ score then "Easy (6th-7th Grade)" else g1
    let g3 := if 80 ≤ score then "Very Easy (5th Grade)" else g2
    (max 0 (min 100 score), g3)

/-- The unclamped Flesch score `206.835 - 1.015 * ASL - 84.6 * ASW` of
`calculate_reading_ease`, as a standalone observable. -/
def rawReadingScore (text : List Char) : ℚ :=
  206.835 - 1.015 * ((wordsOf text).length : ℚ) / ((sentencesOf text).length : ℚ)
    - 84.6 * (((wordsOf text).map vowelRuns).sum : ℚ) / ((wordsOf text).length : ℚ)

/-- `re.search(r'\?\s*\w{2,}:', content)` tested at the head of the list:
a question mark, optional whitespace, at least two word characters, then a
colon (word characters cannot overrun the colon, so the maximal run decides). -/
def qaMatchAt : List Char → Bool
  | '?' :: rest =>
    let afterWs := rest.dropWhile isSpaceChar
    let run := afterWs.takeWhile isWordChar
    decide (2 ≤ run.length) && (afterWs.drop run.length).head? = some ':'
  | _ => false

/-- Does `p` hold at some suffix of the list (regex search). -/
def existsTail (p : List Char → Bool) : List Char → Bool
  | [] => p []
  | c :: rest => p (c :: rest) || existsTail p rest

/-- `re.search(r'\?\s*\w{2,}:', content) is not None`. -/
def qaStructure (content : List Char) : Bool := existsTail qaMatchAt content

/-- `re.search(r'^#\s*(.*)', content, re.MULTILINE)`: the capture group of
the first line starting with `#` (greedy `\s*` may also consume newlines,
after which `.*` stops at the next newline), or `none`. -/
def findTitleAux : Bool → List Char → Option (List Char)
  | _, [] => none
  | atStart, c :: rest =>
    if atStart && c = '#' then
      some ((rest.dropWhile isSpaceChar).takeWhile (fun x => x ≠ '\n'))
    else
      findTitleAux (c = '\n') rest

/-- The title capture group of the content, if any. -/
def titleGroup (content : List Char) : Option (List Char) := findTitleAux true content

/-- `len(re.findall(r'^##\s', content, re.MULTILINE))`: level-2 heading marks. -/
def h2CountAux : Bool → List Char → Nat
  | _, [] => 0
  | atStart, c :: rest =>
    (if atStart && c = '#' then
      match rest with
      | c2 :: c3 :: _ => if c2 = '#' && isSpaceChar c3 then 1 else 0
      | _ => 0
    else 0) + h2CountAux (c = '\n') rest

/-- Number of `^##\s` matches in the content. -/
def h2CountOf (content : List Char) : Nat := h2CountAux true content

/-- `paragraphs[0].lower() if paragraphs else ""`. -/
def introOf (content : List Char) : List Char :=
  lower ((paragraphsOf content).headD [])

/-- `paragraphs[-1].lower() if len(paragraphs) > 1 else ""`. -/
def conclOf (content : List Char) : List Char :=
  if 1 < (paragraphsOf content).length then lower ((paragraphsOf content).getLastD [])
  else []

/-! Section 1 of `streamlit_app.py`: E-E-A-T and utility, max 40. -/

/-- Number of experience and trust patterns present (`re.search` per pattern). -/
def eeatCuesS (cl : List Char) : Nat :=
  (EEAT_EXPERIENCE_KEYWORDS_S.filter (fun k => containsSub cl k)).length
    + (EEAT_TRUST_KEYWORDS_S.filter (fun k => containsSub cl k)).length

/-- Number of utility patterns present. -/
def utilityCuesS (cl : List Char) : Nat :=
  (UTILITY_KEYWORDS_S.filter (fun k => containsSub cl k)).length

/-- The E-E-A-T and utility section score of `streamlit_app.py`. -/
def score_eeat_s (content cl : List Char) : ℚ :=
  let s1 : ℚ := if 0 < eeatCuesS cl then ((min 25 (eeatCuesS cl * 5) : ℕ) : ℚ) else 0
  let s2 : ℚ := if qaStructure content then 5 else 0
  let s3 : ℚ :=
    if containsSub cl (pat "author:")
        && (containsSub cl (pat "dr.") || containsSub cl (pat "ph.d.")) then 5
    else if containsSub cl (pat "author:") then 2
    else 0
  let s4 : ℚ := if 0 < utilityCuesS cl then ((min 5 (utilityCuesS cl * 2) : ℕ) : ℚ) else 0
  min 40 (s1 + s2 + s3 + s4)

/-! Section 2 of `streamlit_app.py`: keyword relevance and placement, max 20. -/

/-- `len(re.findall(re.escape(target_keyword.lower()), clean_content))`. -/
def keywordMentionsS (cl kl : List Char) : Nat := countSubstr kl cl

/-- The density value `(keyword_mentions / word_count) * 100`. -/
def densityValS (cl kl : List Char) (wc : Nat) : ℚ :=
  ((keywordMentionsS cl kl : ℚ) / (wc : ℚ)) * 100

/-- Density points of `streamlit_app.py`: target band 0.5 to 2.5. -/
def densityScoreS (cl kl : List Char) (wc : Nat) : ℚ :=
  if 0 < wc then
    if 0.5 ≤ densityValS cl kl wc ∧ densityValS cl kl wc ≤ 2.5 then 10
    else if densityValS cl kl wc < 0.5 then 5
    else 2
  else 0

/-- Title placement points: keyword contained in the `^#` capture group. -/
def titleScoreS (content target_keyword : List Char) : ℚ :=
  match titleGroup content with
  | some t => if containsSub (lower t) (lower target_keyword) then 4 else 0
  | none => 0

/-- Introduction placement points: keyword in the first 150 characters of
the first paragraph. -/
def introScoreS (content target_keyword : List Char) : ℚ :=
  if containsSub ((introOf content).take 150) (lower target_keyword) then 4 else 0

/-- Conclusion placement points. -/
def conclScoreS (content target_keyword : List Char) : ℚ :=
  if containsSub (conclOf content) (lower target_keyword) then 2 else 0

/-- The keyword relevance section score of `streamlit_app.py`. -/
def score_keyword_s (content cl target_keyword : List Char) (wc : Nat) : ℚ :=
  min 20 (densityScoreS cl (lower target_keyword) wc + titleScoreS content target_keyword
    + introScoreS content target_keyword + conclScoreS content target_keyword)

/-! Section 3 of `streamlit_app.py`: integrity and compliance, max 20,
written as one definition per sequential stage of the source. -/

/-- Number of spam patterns present (`re.search` per pattern). -/
def spamCuesS (cl : List Char) : Nat :=
  (SPAMMY_KEYWORDS_S.filter (fun k => containsSub cl k)).length

/-- Number of repetitive phrases occurring more than once. -/
def repCuesS (cl : List Char) : Nat :=
  (REPETITIVE_PHRASES_S.filter (fun k => 1 < countSubstr k cl)).length

/-- `any(re.search(k, clean_content) for k in AI_DISCLOSURE_KEYWORDS)`. -/
def aiDisclosedS (cl : List Char) : Bool :=
  AI_DISCLOSURE_KEYWORDS_S.any (fun k => containsSub cl k)

/-- Running score after penalty stage A (spam), starting from 20. -/
def scoreAfterSpamS (cl : List Char) : ℚ :=
  if 0 < spamCuesS cl then 20 - 5 else 20

/-- Running penalty-event count after stage A. -/
def pAfterSpamS (cl : List Char) : Nat := if 0 < spamCuesS cl then 1 else 0

/-- Running score after penalty stage B (repetitive). -/
def scoreAfterRepS (cl : List Char) : ℚ :=
  if 0 < repCuesS cl then scoreAfterSpamS cl - 5 else scoreAfterSpamS cl

/-- Running penalty-event count after stage B. -/
def pAfterRepS (cl : List Char) : Nat :=
  pAfterSpamS cl + (if 0 < repCuesS cl then 1 else 0)

/-- Stage C condition: `not ai_disclosed and score_integrity < 20`. -/
def aiPenaltyFiresS (cl : List Char) : Bool :=
  !aiDisclosedS cl && decide (scoreAfterRepS cl < 20)

/-- Running score after penalty stage C (AI transparency, minus 5). -/
def scoreAfterAiS (cl : List Char) : ℚ :=
  if aiPenaltyFiresS cl then scoreAfterRepS cl - 5 else scoreAfterRepS cl

/-- Running penalty-event count after stage C. -/
def pAfterAiS (cl : List Char) : Nat :=
  pAfterRepS cl + (if aiPenaltyFiresS cl then 1 else 0)

/-- Running score after penalty stage D (thin content, below 300 words). -/
def scoreAfterThinS (cl : List Char) (wc : Nat) : ℚ :=
  if wc < 300 then scoreAfterAiS cl - 5 else scoreAfterAiS cl

/-- The final penalty-event count of the integrity section. -/
def penaltyCountS (cl : List Char) (wc : Nat) : Nat :=
  pAfterAiS cl + (if wc < 300 then 1 else 0)

/-- The integrity section score: the zero-out rule fires at two penalty
events, negative scores clamp to 0, and the result is capped at the max. -/
def integrityScoreS (cl : List Char) (wc : Nat) : ℚ :=
  min 20
    (if 2 ≤ penaltyCountS cl wc then 0
     else if scoreAfterThinS cl wc < 0 then 0
     else scoreAfterThinS cl wc)

/-- The `cues` list of the integrity section, in source append order. -/
def integrityCuesS (cl : List Char) (wc : Nat) : List STag :=
  ((SPAMMY_KEYWORDS_S.filter (fun k => containsSub cl k)).map STag.spamCueFound)
    ++ (if 0 < spamCuesS cl then [] else [STag.cleanLanguage])
    ++ ((REPETITIVE_PHRASES_S.filter (fun k => 1 < countSubstr k cl)).map STag.repCueFound)
    ++ (if 0 < repCuesS cl then [] else [STag.lowRepetition])
    ++ (if aiPenaltyFiresS cl then []
        else if aiDisclosedS cl then [STag.aiDisclosedCue]
        else [STag.aiNeutral])
    ++ (if 2 ≤ penaltyCountS cl wc then [STag.totalFailureCue] else [])

/-- The `missing` list of the integrity section, in source append order. -/
def integrityMissingS (cl : List Char) (wc : Nat) : List STag :=
  (if 0 < spamCuesS cl then [STag.spamMiss] else [])
    ++ (if 0 < repCuesS cl then [STag.repMiss] else [])
    ++ (if aiPenaltyFiresS cl then [STag.aiTransparencyMiss] else [])
    ++ (if wc < 300 then [STag.thinMiss] else [])

/-! Section 4 of `streamlit_app.py`: technical, freshness and links, max 20. -/

/-- Number of freshness patterns present. -/
def freshnessCuesS (cl : List Char) : Nat :=
  (FRESHNESS_KEYWORDS_S.filter (fun k => containsSub cl k)).length

/-- Number of paragraphs with more than 7 sentence-punctuation runs. -/
def longParagraphsOf (content : List Char) : Nat :=
  ((paragraphsOf content).filter
    (fun p => 7 < countRunsAux false (p.map isSentEnd))).length

/-- The technical section score of `streamlit_app.py`. -/
def score_tech_s (content cl : List Char) : ℚ :=
  let s1 : ℚ :=
    if 0 < freshnessCuesS cl then ((min 5 (freshnessCuesS cl * 3) : ℕ) : ℚ) else 0
  let s2 : ℚ := if 2 ≤ countSubstr (pat "[internal link") cl then 3 else 0
  let s3 : ℚ := if 1 ≤ countSubstr (pat "[external link") cl then 2 else 0
  let s4 : ℚ := if 3 ≤ h2CountOf content then 5 else 0
  let s5 : ℚ :=
    if longParagraphsOf content = 0 ∧ 5 < (paragraphsOf content).length then 5
    else if 0 < longParagraphsOf content then 2
    else 0
  min 20 (s1 + s2 + s3 + s4 + s5)

/-- The report data assembled by `analyze_content` in `streamlit_app.py`
(scores of the four sections, the integrity finding lists, and the total). -/
structure ReportS where
  word_count : Nat
  eeatScore : ℚ
  keywordScore : ℚ
  integrityScore : ℚ
  integrityCues : List STag
  integrityMissing : List STag
  integrityPenaltyCount : Nat
  techScore : ℚ
  total_score : ℚ
deriving DecidableEq, Repr

/-- `analyze_content(content, target_keyword)` of `streamlit_app.py`. -/
def analyze_content_s (content target_keyword : List Char) : ReportS :=
  let cl := lower content
  let wc := wordCount cl
  { word_count := wc
    eeatScore := score_eeat_s content cl
    keywordScore := score_keyword_s content cl target_keyword wc
    integrityScore := integrityScoreS cl wc
    integrityCues := integrityCuesS cl wc
    integrityMissing := integrityMissingS cl wc
    integrityPenaltyCount := penaltyCountS cl wc
    techScore := score_tech_s content cl
    total_score := score_eeat_s content cl + score_keyword_s content cl target_keyword wc
      + integrityScoreS cl wc + score_tech_s content cl }

/-! Division-checked variants: every division of the source is replaced by a
partial division that fails on a zero divisor, so that totality of the
guarded code becomes a provable statement rather than an artifact of the
embedding. -/

/-- Division that fails on a zero divisor. -/
def qdivOpt (a b : ℚ) : Option ℚ := if b = 0 then none else some (a / b)

/-- `calculate_reading_ease` with checked divisions. -/
def calculate_reading_ease_opt (text : List Char) : Option (ℚ × String) :=
  let sentences := sentencesOf text
  let ws := wordsOf text
  let syllables := (ws.map vowelRuns).sum
  if ws = [] ∨ sentences = [] then some (100, "N/A")
  else
    match qdivOpt (ws.length : ℚ) (sentences.length : ℚ),
        qdivOpt (syllables : ℚ) (ws.length : ℚ) with
    | some asl, some asw =>
      let score : ℚ := 206.835 - 1.015 * asl - 84.6 * asw
      let g0 := "Complex (Post-Graduate)"
      let g1 := if 60 ≤ score then "Fairly Easy (8th-9th Grade)" else g0
      let g2 := if 70 ≤ score then "Easy (6th-7th Grade)" else g1
      let g3 := if 80 ≤ score then "Very Easy (5th Grade)" else g2
      some (max 0 (min 100 score), g3)
    | _, _ => none

/-- The `main.py` density computation with a checked division. -/
def densityMainOpt (content target_keyword : List Char) (wc : Nat) : Option ℚ :=
  if 0 < wc then
    (qdivOpt (keyword_matches content target_keyword : ℚ) (wc : ℚ)).map (fun q => q * 100)
  else some 0

/-- `check_keyword_relevance` with a checked density division. -/
def check_keyword_relevance_opt (content target_keyword : List Char) (wc : Nat) :
    Option (ℚ × List Finding) :=
  (densityMainOpt content target_keyword wc).map (fun d =>
    (round2 ((densityStage d).1 + (placementStage content target_keyword).1),
     [(densityStage d).2, (placementStage content target_keyword).2]))

/-- `analyze_content` of `main.py` with checked divisions. -/
def analyze_content_main_opt (content target_keyword : List Char) : Option ReportMain :=
  (check_keyword_relevance_opt content target_keyword (wordCount content)).map (fun k =>
    let cl := lower content
    let wc := wordCount content
    let e := check_eeat cl wc
    let i := check_integrity_compliance cl
    { word_count := wc
      eeat := ⟨e.1, 20 + 15 + 15, e.2⟩
      keyword := ⟨k.1, 25, k.2⟩
      integrity := ⟨i.1, 25, i.2⟩
      total_score := e.1 + k.1 + i.1 })

/-- The `streamlit_app.py` density points with a checked division. -/
def densityScoreSOpt (cl kl : List Char) (wc : Nat) : Option ℚ :=
  if 0 < wc then
    (qdivOpt (keywordMentionsS cl kl : ℚ) (wc : ℚ)).map (fun q =>
      if 0.5 ≤ q * 100 ∧ q * 100 ≤ 2.5 then 10
      else if q * 100 < 0.5 then 5
      else 2)
  else some 0

/-- `analyze_content` of `streamlit_app.py` with checked divisions. -/
def analyze_content_s_opt (content target_keyword : List Char) : Option ReportS :=
  let cl := lower content
  let wc := wordCount cl
  (densityScoreSOpt cl (lower target_keyword) wc).map (fun ds =>
    let sk := min 20 (ds + titleScoreS content target_keyword
      + introScoreS content target_keyword + conclScoreS content target_keyword)
    { word_count := wc
      eeatScore := score_eeat_s content cl
      keywordScore := sk
      integrityScore := integrityScoreS cl wc
      integrityCues := integrityCuesS cl wc
      integrityMissing := integrityMissingS cl wc
      integrityPenaltyCount := penaltyCountS cl wc
      techScore := score_tech_s content cl
      total_score := score_eeat_s content cl + sk + integrityScoreS cl wc
        + score_tech_s content cl })

/-- Modelled from the claim's words, for comparison with the code: the spam
match count read as the summed occurrences across all `streamlit_app.py`
spam patterns (the code instead counts patterns that are present at all). -/
def spamOccurrencesSpecS (cl : List Char) : Nat :=
  (SPAMMY_KEYWORDS_S.map (fun k => countSubstr k cl)).sum

/-! Concrete inputs used by the counterexample and witness theorems. -/

/-- A single spam phrase: in `main.py` this fires the spam penalty (5 points)
and the conditional AI penalty (10 points) - two penalty events, 15 points. -/
def exSpamOnce : List Char := pat "buy now"

/-- A doubled spam phrase: 10 + 10 = 20 penalty points in `main.py`. -/
def exSpamTwice : List Char := pat "buy now buy now"

/-- Clean, thin content with no AI disclosure. -/
def exThinClean : List Char := pat "hello there friend"

/-- Fifty words containing the keyword `fox` exactly once: density 2%. -/
def exFiftyWords : List Char :=
  pat "fox aa aa aa aa aa aa aa aa aa aa aa aa aa aa aa aa aa aa aa aa aa aa aa aa aa aa aa aa aa aa aa aa aa aa aa aa aa aa aa aa aa aa aa aa aa aa aa aa aa"

/-- The keyword used with `exFiftyWords`. -/
def exFox : List Char := pat "fox"

/-- Five occurrences of an experience phrase. -/
def exFiveTested : List Char := pat "i tested i tested i tested i tested i tested"

/-- One occurrence of an experience phrase. -/
def exOneTested : List Char := pat "i tested"

/-- An AI-disclosure phrase. -/
def exDisclosed : List Char := pat "ai-generated"

/-- Spam together with an AI-disclosure phrase. -/
def exSpamDisclosed : List Char := pat "buy now ai-generated"

/-- A one-word, one-sentence text: reading ease far above 80. -/
def exHi : List Char := pat "Hi."

/-- Two plain words (used with the empty keyword). -/
def exHelloWorld : List Char := pat "hello world"

/-! Helper lemmas: characters, lowercasing and word boundaries. -/

theorem uint32_ofNat_le_iff (n : Nat) (hn : n < 4294967296) (a : UInt32) :
    ((OfNat.ofNat n : UInt32) ≤ a) ↔ n ≤ a.toNat := by
  rw [UInt32.le_def, BitVec.le_def]
  have h : (OfNat.ofNat n : UInt32).toBitVec.toNat = n := by
    simp [UInt32.toNat, Nat.mod_eq_of_lt hn]
  rw [h]
  exact Iff.rfl

theorem uint32_le_ofNat_iff (n : Nat) (hn : n < 4294967296) (a : UInt32) :
    (a ≤ (OfNat.ofNat n : UInt32)) ↔ a.toNat ≤ n := by
  rw [UInt32.le_def, BitVec.le_def]
  have h : (OfNat.ofNat n : UInt32).toBitVec.toNat = n := by
    simp [UInt32.toNat, Nat.mod_eq_of_lt hn]
  rw [h]
  exact Iff.rfl

theorem isUpper_toNat (c : Char) : c.isUpper = decide (65 ≤ c.toNat ∧ c.toNat ≤ 90) := by
  show (decide (c.val ≥ 65) && decide (c.val ≤ 90)) = _
  rw [Bool.eq_iff_iff]
  simp only [Bool.and_eq_true, decide_eq_true_eq, ge_iff_le]
  rw [uint32_ofNat_le_iff 65 (by norm_num), uint32_le_ofNat_iff 90 (by norm_num)]
  exact Iff.rfl

theorem isLower_toNat (c : Char) : c.isLower = decide (97 ≤ c.toNat ∧ c.toNat ≤ 122) := by
  show (decide (c.val ≥ 97) && decide (c.val ≤ 122)) = _
  rw [Bool.eq_iff_iff]
  simp only [Bool.and_eq_true, decide_eq_true_eq, ge_iff_le]
  rw [uint32_ofNat_le_iff 97 (by norm_num), uint32_le_ofNat_iff 122 (by norm_num)]
  exact Iff.rfl

theorem isDigit_toNat (c : Char) : c.isDigit = decide (48 ≤ c.toNat ∧ c.toNat ≤ 57) := by
  show (decide (c.val ≥ 48) && decide (c.val ≤ 57)) = _
  rw [Bool.eq_iff_iff]
  simp only [Bool.and_eq_true, decide_eq_true_eq, ge_iff_le]
  rw [uint32_ofNat_le_iff 48 (by norm_num), uint32_le_ofNat_iff 57 (by norm_num)]
  exact Iff.rfl

theorem char_eq_iff_toNat (c d : Char) : (c = d) ↔ c.toNat = d.toNat := by
  constructor
  · intro h; rw [h]
  · intro h
    apply Char.ext
    apply UInt32.ext
    simpa [Char.toNat] using h

theorem isWordChar_toNat (c : Char) :
    isWordChar c = decide ((65 ≤ c.toNat ∧ c.toNat ≤ 90) ∨ (97 ≤ c.toNat ∧ c.toNat ≤ 122)
      ∨ (48 ≤ c.toNat ∧ c.toNat ≤ 57) ∨ c.toNat = 95) := by
  unfold isWordChar Char.isAlphanum Char.isAlpha
  rw [isUpper_toNat, isLower_toNat, isDigit_toNat, Bool.eq_iff_iff]
  simp only [Bool.or_eq_true, decide_eq_true_eq]
  constructor
  · rintro (((h | h) | h) | h)
    · exact Or.inl h
    · exact Or.inr (Or.inl h)
    · exact Or.inr (Or.inr (Or.inl h))
    · refine Or.inr (Or.inr (Or.inr ?_))
      rw [char_eq_iff_toNat] at h
      simpa using h
  · rintro (h | h | h | h)
    · exact Or.inl (Or.inl (Or.inl h))
    · exact Or.inl (Or.inl (Or.inr h))
    · exact Or.inl (Or.inr h)
    · refine Or.inr ?_
      rw [char_eq_iff_toNat]
      simpa using h

theorem toNat_toLower (c : Char) :
    (Char.toLower c).toNat
      = if 65 ≤ c.toNat ∧ c.toNat ≤ 90 then c.toNat + 32 else c.toNat := by
  unfold Char.toLower
  by_cases h : 65 ≤ c.toNat ∧ c.toNat ≤ 90
  · rw [if_pos ⟨h.1, h.2⟩, if_pos h]
    unfold Char.ofNat
    rw [dif_pos (Or.inl (by omega))]
    rfl
  · rw [if_neg (fun hc => h ⟨hc.1, hc.2⟩), if_neg h]

theorem isWordChar_toLower (c : Char) : isWordChar (Char.toLower c) = isWordChar c := by
  rw [isWordChar_toNat, isWordChar_toNat, toNat_toLower]
  by_cases h : 65 ≤ c.toNat ∧ c.toNat ≤ 90
  · rw [if_pos h]
    simp only [decide_eq_decide]
    omega
  · rw [if_neg h]

theorem lower_map_isWordChar (s : List Char) :
    (lower s).map isWordChar = s.map isWordChar := by
  unfold lower
  rw [List.map_map]
  exact List.map_congr_left (fun c _ => isWordChar_toLower c)

theorem countTogglesAux_eq_runs (l : List Bool) :
    ∀ prev, countTogglesAux prev l
      = 2 * countRunsAux prev l + (if prev then 1 else 0) := by
  induction l with
  | nil => intro prev; cases prev <;> simp [countTogglesAux, countRunsAux]
  | cons b rest ih =>
    intro prev
    simp only [countTogglesAux, countRunsAux, ih b]
    cases b <;> cases prev <;> simp <;> omega

/-- With the empty keyword, `\b\b` matches at every word boundary of the
lowercased content: exactly twice the raw word count. -/
theorem keyword_matches_nil (content : List Char) :
    keyword_matches content [] = 2 * wordCount content := by
  unfold keyword_matches countBounded wordCount
  rw [show lower [] = [] from rfl, if_pos rfl, lower_map_isWordChar,
    countTogglesAux_eq_runs]
  simp

/-! Helper lemmas: rounding. -/

theorem round2_mono {a b : ℚ} (h : a ≤ b) : round2 a ≤ round2 b := by
  unfold round2
  have h2 : a * 100 + 1 / 2 ≤ b * 100 + 1 / 2 := by linarith
  have h3 : ((⌊a * 100 + 1 / 2⌋ : ℤ) : ℚ) ≤ ((⌊b * 100 + 1 / 2⌋ : ℤ) : ℚ) := by
    exact_mod_cast Int.floor_mono h2
  linarith

/-! Helper lemmas: bounds of the `main.py` section scores. -/

theorem experienceStage_bounds (em : Nat) :
    0 ≤ (experienceStage em).1 ∧ (experienceStage em).1 ≤ 20 := by
  unfold experienceStage
  split_ifs <;> norm_num

theorem trustStage_bounds (cl : List Char) :
    3 ≤ (trustStage cl).1 ∧ (trustStage cl).1 ≤ 15 := by
  unfold trustStage
  split_ifs <;> norm_num

theorem utilityStage_bounds (wc : Nat) :
    3 / 2 ≤ (utilityStage wc).1 ∧ (utilityStage wc).1 ≤ 15 := by
  unfold utilityStage
  split_ifs <;> norm_num

theorem check_eeat_bounds (cl : List Char) (wc : Nat) :
    9 / 2 ≤ (check_eeat cl wc).1 ∧ (check_eeat cl wc).1 ≤ 50 := by
  have he := experienceStage_bounds (experience_matches cl)
  have ht := trustStage_bounds cl
  have hu := utilityStage_bounds wc
  unfold check_eeat
  constructor
  · have h1 : (9 / 2 : ℚ) ≤ (experienceStage (experience_matches cl)).1
        + (trustStage cl).1 + (utilityStage wc).1 := by linarith
    calc (9 / 2 : ℚ) = round2 (9 / 2) := by norm_num [round2]
    _ ≤ _ := round2_mono h1
  · have h2 : (experienceStage (experience_matches cl)).1
        + (trustStage cl).1 + (utilityStage wc).1 ≤ 50 := by linarith
    calc round2 _ ≤ round2 50 := round2_mono h2
    _ = 50 := by norm_num [round2]

theorem densityStage_bounds (d : ℚ) :
    0 ≤ (densityStage d).1 ∧ (densityStage d).1 ≤ 15 := by
  unfold densityStage
  split_ifs <;> norm_num

theorem placementStage_bounds (content target_keyword : List Char) :
    0 ≤ (placementStage content target_keyword).1
      ∧ (placementStage content target_keyword).1 ≤ 10 := by
  unfold placementStage
  split_ifs <;> norm_num

theorem check_keyword_relevance_bounds (content target_keyword : List Char) (wc : Nat) :
    0 ≤ (check_keyword_relevance content target_keyword wc).1
      ∧ (check_keyword_relevance content target_keyword wc).1 ≤ 25 := by
  have hd := densityStage_bounds (densityMain content target_keyword wc)
  have hp := placementStage_bounds content target_keyword
  unfold check_keyword_relevance
  constructor
  · have h1 : (0 : ℚ) ≤ (densityStage (densityMain content target_keyword wc)).1
        + (placementStage content target_keyword).1 := by linarith
    calc (0 : ℚ) = round2 0 := by norm_num [round2]
    _ ≤ _ := round2_mono h1
  · have h2 : (densityStage (densityMain content target_keyword wc)).1
        + (placementStage content target_keyword).1 ≤ 25 := by linarith
    calc round2 _ ≤ round2 25 := round2_mono h2
    _ = 25 := by norm_num [round2]

theorem check_integrity_compliance_bounds (cl : List Char) :
    0 ≤ (check_integrity_compliance cl).1 ∧ (check_integrity_compliance cl).1 ≤ 25 := by
  have hc : (0 : ℚ) ≤ (totalPenaltyMain cl : ℚ) := by positivity
  by_cases h : 20 ≤ totalPenaltyMain cl
  · simp only [check_integrity_compliance, if_pos h]
    constructor
    · exact le_max_left _ _
    · exact max_le (by norm_num) (by norm_num)
  · simp only [check_integrity_compliance, if_neg h]
    constructor
    · exact le_max_left _ _
    · exact max_le (by norm_num) (by linarith)

/-! Helper lemmas: bounds of the `streamlit_app.py` section scores. -/

theorem score_eeat_s_bounds (content cl : List Char) :
    0 ≤ score_eeat_s content cl ∧ score_eeat_s content cl ≤ 40 := by
  unfold score_eeat_s
  refine ⟨le_min (by norm_num) ?_, min_le_left _ _⟩
  have h1 : (0 : ℚ) ≤ (if 0 < eeatCuesS cl then ((min 25 (eeatCuesS cl * 5) : ℕ) : ℚ) else 0) := by
    split_ifs <;> positivity
  have h2 : (0 : ℚ) ≤ (if qaStructure content then (5 : ℚ) else 0) := by
    split_ifs <;> norm_num
  have h3 : (0 : ℚ) ≤ (if containsSub cl (pat "author:")
      && (containsSub cl (pat "dr.") || containsSub cl (pat "ph.d.")) then (5 : ℚ)
    else if containsSub cl (pat "author:") then 2 else 0) := by
    split_ifs <;> norm_num
  have h4 : (0 : ℚ) ≤ (if 0 < utilityCuesS cl then ((min 5 (utilityCuesS cl * 2) : ℕ) : ℚ) else 0) := by
    split_ifs <;> positivity
  linarith

theorem densityScoreS_bounds (cl kl : List Char) (wc : Nat) :
    0 ≤ densityScoreS cl kl wc ∧ densityScoreS cl kl wc ≤ 10 := by
  unfold densityScoreS
  split_ifs <;> norm_num

theorem titleScoreS_bounds (content target_keyword : List Char) :
    0 ≤ titleScoreS content target_keyword ∧ titleScoreS content target_keyword ≤ 4 := by
  unfold titleScoreS
  rcases titleGroup content with _ | t
  · norm_num
  · simp only []
    split_ifs <;> norm_num

theorem introScoreS_bounds (content target_keyword : List Char) :
    0 ≤ introScoreS content target_keyword ∧ introScoreS content target_keyword ≤ 4 := by
  unfold introScoreS
  split_ifs <;> norm_num

theorem conclScoreS_bounds (content target_keyword : List Char) :
    0 ≤ conclScoreS content target_keyword ∧ conclScoreS content target_keyword ≤ 2 := by
  unfold conclScoreS
  split_ifs <;> norm_num

theorem score_keyword_s_bounds (content cl target_keyword : List Char) (wc : Nat) :
    0 ≤ score_keyword_s content cl target_keyword wc
      ∧ score_keyword_s content cl target_keyword wc ≤ 20 := by
  have h1 := densityScoreS_bounds cl (lower target_keyword) wc
  have h2 := titleScoreS_bounds content target_keyword
  have h3 := introScoreS_bounds content target_keyword
  have h4 := conclScoreS_bounds content target_keyword
  unfold score_keyword_s
  exact ⟨le_min (by norm_num) (by linarith), min_le_left _ _⟩

theorem integrityScoreS_bounds (cl : List Char) (wc : Nat) :
    0 ≤ integrityScoreS cl wc ∧ integrityScoreS cl wc ≤ 20 := by
  unfold integrityScoreS
  refine ⟨le_min (by norm_num) ?_, min_le_left _ _⟩
  split_ifs with h1 h2
  · norm_num
  · norm_num
  · linarith [not_lt.mp h2]

theorem score_tech_s_bounds (content cl : List Char) :
    0 ≤ score_tech_s content cl ∧ score_tech_s content cl ≤ 20 := by
  unfold score_tech_s
  refine ⟨le_min (by norm_num) ?_, min_le_left _ _⟩
  have h1 : (0 : ℚ) ≤ (if 0 < freshnessCuesS cl then ((min 5 (freshnessCuesS cl * 3) : ℕ) : ℚ) else 0) := by
    split_ifs <;> positivity
  have h2 : (0 : ℚ) ≤ (if 2 ≤ countSubstr (pat "[internal link") cl then (3 : ℚ) else 0) := by
    split_ifs <;> norm_num
  have h3 : (0 : ℚ) ≤ (if 1 ≤ countSubstr (pat "[external link") cl then (2 : ℚ) else 0) := by
    split_ifs <;> norm_num
  have h4 : (0 : ℚ) ≤ (if 3 ≤ h2CountOf content then (5 : ℚ) else 0) := by
    split_ifs <;> norm_num
  have h5 : (0 : ℚ) ≤ (if longParagraphsOf content = 0 ∧ 5 < (paragraphsOf content).length
      then (5 : ℚ) else if 0 < longParagraphsOf content then 2 else 0) := by
    split_ifs <;> norm_num
  linarith

/-! Helper lemmas: the division-checked variants agree with the plain ones. -/

theorem densityMainOpt_eq (content target_keyword : List Char) (wc : Nat) :
    densityMainOpt content target_keyword wc
      = some (densityMain content target_keyword wc) := by
  unfold densityMainOpt densityMain qdivOpt
  by_cases h : 0 < wc
  · rw [if_pos h, if_pos h, if_neg (Nat.cast_ne_zero.mpr h.ne' : ¬((wc : ℚ) = 0))]
    rfl
  · rw [if_neg h, if_neg h]

theorem check_keyword_relevance_opt_eq (content target_keyword : List Char) (wc : Nat) :
    check_keyword_relevance_opt content target_keyword wc
      = some (check_keyword_relevance content target_keyword wc) := by
  unfold check_keyword_relevance_opt check_keyword_relevance
  rw [densityMainOpt_eq]
  rfl

theorem densityScoreSOpt_eq (cl kl : List Char) (wc : Nat) :
    densityScoreSOpt cl kl wc = some (densityScoreS cl kl wc) := by
  unfold densityScoreSOpt densityScoreS densityValS
  by_cases h : 0 < wc
  · rw [if_pos h, if_pos h]
    unfold qdivOpt
    rw [if_neg (Nat.cast_ne_zero.mpr h.ne' : ¬((wc : ℚ) = 0))]
    rfl
  · rw [if_neg h, if_neg h]

theorem calculate_reading_ease_opt_eq (text : List Char) :
    calculate_reading_ease_opt text = some (calculate_reading_ease text) := by
  unfold calculate_reading_ease_opt calculate_reading_ease
  by_cases h : wordsOf text = [] ∨ sentencesOf text = []
  · rw [if_pos h, if_pos h]
  · rw [if_neg h, if_neg h]
    push_neg at h
    have hs : ¬(((sentencesOf text).length : ℚ) = 0) :=
      Nat.cast_ne_zero.mpr (fun hl => h.2 (List.length_eq_zero.mp hl))
    have hw : ¬(((wordsOf text).length : ℚ) = 0) :=
      Nat.cast_ne_zero.mpr (fun hl => h.1 (List.length_eq_zero.mp hl))
    unfold qdivOpt
    rw [if_neg hs, if_neg hw]

/-! The claims. -/

/-- C3: clamping and aggregation invariant.  For every input, each section
score of both analyzers satisfies `0 ≤ score ≤ max`, and the report total
equals the sum of the section scores and lies within `[0, 100]`. -/
theorem claim_C3 (content target_keyword : List Char) :
    (0 ≤ (analyze_content_main content target_keyword).eeat.score
      ∧ (analyze_content_main content target_keyword).eeat.score
          ≤ (analyze_content_main content target_keyword).eeat.maxScore)
  ∧ (0 ≤ (analyze_content_main content target_keyword).keyword.score
      ∧ (analyze_content_main content target_keyword).keyword.score
          ≤ (analyze_content_main content target_keyword).keyword.maxScore)
  ∧ (0 ≤ (analyze_content_main content target_keyword).integrity.score
      ∧ (analyze_content_main content target_keyword).integrity.score
          ≤ (analyze_content_main content target_keyword).integrity.maxScore)
  ∧ (analyze_content_main content target_keyword).total_score
      = (analyze_content_main content target_keyword).eeat.score
        + (analyze_content_main content target_keyword).keyword.score
        + (analyze_content_main content target_keyword).integrity.score
  ∧ (0 ≤ (analyze_content_main content target_keyword).total_score
      ∧ (analyze_content_main content target_keyword).total_score ≤ MAX_TOTAL_MAIN)
  ∧ (0 ≤ (analyze_content_s content target_keyword).eeatScore
      ∧ (analyze_content_s content target_keyword).eeatScore ≤ EEAT_MAX_SCORE)
  ∧ (0 ≤ (analyze_content_s content target_keyword).keywordScore
      ∧ (analyze_content_s content target_keyword).keywordScore ≤ KEYWORD_MAX_SCORE)
  ∧ (0 ≤ (analyze_content_s content target_keyword).integrityScore
      ∧ (analyze_content_s content target_keyword).integrityScore ≤ INTEGRITY_MAX_SCORE)
  ∧ (0 ≤ (analyze_content_s content target_keyword).techScore
      ∧ (analyze_content_s content target_keyword).techScore ≤ TECH_MAX_SCORE)
  ∧ (analyze_content_s content target_keyword).total_score
      = (analyze_content_s content target_keyword).eeatScore
        + (analyze_content_s content target_keyword).keywordScore
        + (analyze_content_s content target_keyword).integrityScore
        + (analyze_content_s content target_keyword).techScore
  ∧ (0 ≤ (analyze_content_s content target_keyword).total_score
      ∧ (analyze_content_s content target_keyword).total_score
          ≤ EEAT_MAX_SCORE + KEYWORD_MAX_SCORE + INTEGRITY_MAX_SCORE + TECH_MAX_SCORE) := by
  have hm1 := check_eeat_bounds (lower content) (wordCount content)
  have hm2 := check_keyword_relevance_bounds content target_keyword (wordCount content)
  have hm3 := check_integrity_compliance_bounds (lower content)
  have hs1 := score_eeat_s_bounds content (lower content)
  have hs2 := score_keyword_s_bounds content (lower content) target_keyword
    (wordCount (lower content))
  have hs3 := integrityScoreS_bounds (lower content) (wordCount (lower content))
  have hs4 := score_tech_s_bounds content (lower content)
  simp only [analyze_content_main, analyze_content_s, MAX_TOTAL_MAIN, EEAT_MAX_SCORE,
    KEYWORD_MAX_SCORE, INTEGRITY_MAX_SCORE, TECH_MAX_SCORE]
  refine ⟨⟨hm1.1.trans' (by norm_num), by linarith [hm1.2]⟩,
    ⟨hm2.1, by linarith [hm2.2]⟩,
    ⟨hm3.1, by linarith [hm3.2]⟩,
    trivial,
    ⟨by linarith [hm1.1, hm2.1, hm3.1], by linarith [hm1.2, hm2.2, hm3.2]⟩,
    ⟨hs1.1, by linarith [hs1.2]⟩,
    ⟨hs2.1, by linarith [hs2.2]⟩,
    ⟨hs3.1, by linarith [hs3.2]⟩,
    ⟨hs4.1, by linarith [hs4.2]⟩,
    trivial,
    ⟨by linarith [hs1.1, hs2.1, hs3.1, hs4.1],
      by linarith [hs1.2, hs2.2, hs3.2, hs4.2]⟩⟩

/-- C9: readability computation.  With zero words or zero sentences the
reading-ease function returns `(100, "N/A")`; otherwise it returns the
Flesch formula clamped to `[0, 100]`, and the grade labels are assigned by
the 60/70/80 thresholds with later higher-threshold labels overriding. -/
theorem claim_C9 (text : List Char) :
    ((wordsOf text).length = 0 ∨ (sentencesOf text).length = 0 →
      calculate_reading_ease text = (100, "N/A"))
  ∧ ((wordsOf text).length ≠ 0 → (sentencesOf text).length ≠ 0 →
      (calculate_reading_ease text).1 = max 0 (min 100 (rawReadingScore text))
        ∧ (rawReadingScore text < 60 →
            (calculate_reading_ease text).2 = "Complex (Post-Graduate)")
        ∧ (60 ≤ rawReadingScore text → rawReadingScore text < 70 →
            (calculate_reading_ease text).2 = "Fairly Easy (8th-9th Grade)")
        ∧ (70 ≤ rawReadingScore text → rawReadingScore text < 80 →
            (calculate_reading_ease text).2 = "Easy (6th-7th Grade)")
        ∧ (80 ≤ rawReadingScore text →
            (calculate_reading_ease text).2 = "Very Easy (5th Grade)")) := by
  constructor
  · intro h
    have h2 : wordsOf text = [] ∨ sentencesOf text = [] := by
      rcases h with h | h
      · exact Or.inl (List.length_eq_zero.mp h)
      · exact Or.inr (List.length_eq_zero.mp h)
    unfold calculate_reading_ease
    rw [if_pos h2]
  · intro hw hs
    have h2 : ¬(wordsOf text = [] ∨ sentencesOf text = []) := by
      rintro (h | h)
      · exact hw (by rw [h]; rfl)
      · exact hs (by rw [h]; rfl)
    have hraw : (206.835 : ℚ)
        - 1.015 * (((wordsOf text).length : ℚ) / ((sentencesOf text).length : ℚ))
        - 84.6 * ((((wordsOf text).map vowelRuns).sum : ℚ) / ((wordsOf text).length : ℚ))
        = rawReadingScore text := by
      unfold rawReadingScore
      ring
    unfold calculate_reading_ease
    rw [if_neg h2]
    dsimp only
    rw [hraw]
    refine ⟨rfl, ?_, ?_, ?_, ?_⟩
    · intro h60
      rw [if_neg (by linarith), if_neg (by linarith), if_neg (by linarith)]
    · intro h60 h70
      rw [if_neg (by linarith), if_neg (by linarith), if_pos h60]
    · intro h70 h80
      rw [if_neg (by linarith), if_pos h70]
    · intro h80
      rw [if_pos h80]

/-- C10: implicit lower bound of the `main.py` editorial section.  The trust
branch contributes at least 3 points and the utility branch at least 1.5 on
every path, so the section score is at least 4.5 and in particular never 0. -/
theorem claim_C10 (content target_keyword : List Char) :
    9 / 2 ≤ (analyze_content_main content target_keyword).eeat.score
      ∧ (analyze_content_main content target_keyword).eeat.score ≠ 0 := by
  have h := check_eeat_bounds (lower content) (wordCount content)
  have heq : (analyze_content_main content target_keyword).eeat.score
      = (check_eeat (lower content) (wordCount content)).1 := rfl
  constructor
  · rw [heq]
    exact h.1
  · rw [heq]
    intro h0
    rw [h0] at h
    exact absurd h.1 (by norm_num)

/-- C4: totality.  Replacing every division of both analyzers and of the
readability function by a division that fails on a zero divisor still
produces a defined report for every input, equal to the plain model, and
degenerate inputs receive the neutral values (readability 100 with grade
"N/A", density 0). -/
theorem claim_C4 (content target_keyword : List Char) :
    analyze_content_main_opt content target_keyword
        = some (analyze_content_main content target_keyword)
  ∧ analyze_content_s_opt content target_keyword
        = some (analyze_content_s content target_keyword)
  ∧ calculate_reading_ease_opt content = some (calculate_reading_ease content)
  ∧ calculate_reading_ease [] = (100, "N/A")
  ∧ densityMain [] target_keyword (wordCount []) = 0 := by
  refine ⟨?_, ?_, calculate_reading_ease_opt_eq content, rfl, rfl⟩
  · unfold analyze_content_main_opt analyze_content_main
    rw [check_keyword_relevance_opt_eq]
    rfl
  · unfold analyze_content_s_opt analyze_content_s
    dsimp only
    rw [densityScoreSOpt_eq]
    unfold score_keyword_s
    rfl

/-- C5 (counterexample): with the empty keyword, `check_keyword_relevance`
does not skip the density sub-check and does not return a single Warn
finding: on `"hello world"` it returns two findings, the first of which is
the Missing keyword-stuffing finding produced by the empty pattern matching
at every word boundary. -/
theorem claim_C5_counterexample :
    (check_keyword_relevance exHelloWorld [] (wordCount exHelloWorld)).2.length = 2
  ∧ (check_keyword_relevance exHelloWorld [] (wordCount exHelloWorld)).2.get? 0
      = some ⟨Severity.Missing, Tag.densityHigh⟩ := by
  have h1 : wordCount exHelloWorld = 2 := by decide
  have h2 : keyword_matches exHelloWorld [] = 4 := by decide
  have hd : densityMain exHelloWorld [] (wordCount exHelloWorld) = 200 := by
    rw [densityMain, h1, h2, if_pos (by norm_num)]
    norm_num
  have hds : densityStage (densityMain exHelloWorld [] (wordCount exHelloWorld))
      = (0, ⟨Severity.Missing, Tag.densityHigh⟩) := by
    rw [hd, densityStage]
    norm_num
  have hps : placementStage exHelloWorld [] = (0, ⟨Severity.Warn, Tag.noKeywordWarn⟩) := by
    rw [placementStage]
    norm_num [lower]
  rw [check_keyword_relevance, hds, hps]
  exact ⟨rfl, rfl⟩

/-- C5 (amended): with the empty keyword the relevance section still
returns score 0 and a Warn finding and raises no error, but the density
sub-check is not skipped: the empty pattern matches at every word boundary
(density 200% for non-empty content, 0% for empty content), so a Missing
density finding precedes the Warn finding and the section returns exactly
two findings. -/
theorem claim_C5_amended (content : List Char) :
    (check_keyword_relevance content [] (wordCount content)).1 = 0
  ∧ ((check_keyword_relevance content [] (wordCount content)).2.map Finding.type)
      = [Severity.Missing, Severity.Warn]
  ∧ (check_keyword_relevance content [] (wordCount content)).2.get? 1
      = some ⟨Severity.Warn, Tag.noKeywordWarn⟩
  ∧ check_keyword_relevance_opt content [] (wordCount content)
      = some (check_keyword_relevance content [] (wordCount content)) := by
  have hps : placementStage content [] = (0, ⟨Severity.Warn, Tag.noKeywordWarn⟩) := by
    rw [placementStage]
    norm_num [lower]
  have hds : (densityStage (densityMain content [] (wordCount content))).1 = 0
      ∧ (densityStage (densityMain content [] (wordCount content))).2.type
          = Severity.Missing := by
    by_cases h : 0 < wordCount content
    · have hd : densityMain content [] (wordCount content) = 200 := by
        rw [densityMain, keyword_matches_nil, if_pos h]
        have hwc : ((wordCount content : ℚ)) ≠ 0 := Nat.cast_ne_zero.mpr h.ne'
        push_cast
        field_simp
        ring
      rw [hd, densityStage]
      norm_num
    · have hd : densityMain content [] (wordCount content) = 0 := by
        rw [densityMain, if_neg h]
      rw [hd, densityStage]
      norm_num
  refine ⟨?_, ?_, ?_, check_keyword_relevance_opt_eq content [] (wordCount content)⟩
  · rw [check_keyword_relevance, hps, hds.1]
    norm_num [round2]
  · rw [check_keyword_relevance, hps]
    simp [hds.2]
  · rw [check_keyword_relevance, hps]
    rfl

/-! Helper lemmas: a closed form of the `main.py` integrity section. -/

theorem check_integrity_score (cl : List Char) :
    (check_integrity_compliance cl).1
      = if 20 ≤ totalPenaltyMain cl then 0
        else max 0 (25 - (totalPenaltyMain cl : ℚ)) := by
  simp only [check_integrity_compliance]
  split_ifs <;> simp

theorem check_integrity_findings (cl : List Char) :
    (check_integrity_compliance cl).2
      = (if 0 < spam_matches cl
          then [(⟨Severity.Missing, Tag.spamDetected⟩ : Finding)] else [])
        ++ (if 3 ≤ repetitive_matches cl
            then [(⟨Severity.Missing, Tag.repetitiveHigh⟩ : Finding)] else [])
        ++ (if is_ai_disclosed cl
            then [(⟨Severity.Good, Tag.aiDisclosedGood⟩ : Finding)]
            else (⟨Severity.Missing, Tag.aiNotDisclosed⟩ : Finding) ::
              (if 0 < spamPenaltyMain cl + repPenaltyMain cl
                then [(⟨Severity.Missing, Tag.aiCritical⟩ : Finding)] else []))
        ++ (if 20 ≤ totalPenaltyMain cl
            then [(⟨Severity.Missing, Tag.totalFailure⟩ : Finding)] else []) := by
  simp only [check_integrity_compliance]
  split_ifs <;> simp

/-- The running `streamlit_app.py` integrity score drops below the max
exactly when the spam or the repetitive penalty fired. -/
theorem scoreAfterRepS_lt_iff (cl : List Char) :
    scoreAfterRepS cl < 20 ↔ (0 < spamCuesS cl ∨ 0 < repCuesS cl) := by
  unfold scoreAfterRepS scoreAfterSpamS
  constructor
  · intro h
    by_contra hc
    push_neg at hc
    rw [if_neg (by omega), if_neg (by omega)] at h
    exact absurd h (by norm_num)
  · intro h
    split_ifs with h1 h2 h2
    · norm_num
    · norm_num
    · norm_num
    · rcases h with h | h
      · exact absurd h h2
      · exact absurd h h1

/-- C1 (amended): the zero-out override.  In `streamlit_app.py` the rule is
as claimed: at least two distinct penalty events force score 0 with a TOTAL
FAILURE finding.  In `main.py` the override instead triggers on a cumulative
point penalty of at least 20, which then also forces score 0 with the TOTAL
FAILURE finding. -/
theorem claim_C1_amended (cl : List Char) (wc : Nat) :
    (2 ≤ penaltyCountS cl wc →
      integrityScoreS cl wc = 0 ∧ STag.totalFailureCue ∈ integrityCuesS cl wc)
  ∧ (20 ≤ totalPenaltyMain cl →
      (check_integrity_compliance cl).1 = 0
        ∧ (⟨Severity.Missing, Tag.totalFailure⟩ : Finding)
            ∈ (check_integrity_compliance cl).2) := by
  constructor
  · intro h
    constructor
    · rw [integrityScoreS, if_pos h]
      exact min_eq_right (by norm_num)
    · rw [integrityCuesS, if_pos h]
      simp
  · intro h
    constructor
    · rw [check_integrity_score, if_pos h]
    · rw [check_integrity_findings, if_pos h]
      simp

/-- C1 (counterexample): in `main.py`, the content `"buy now"` fires two
distinct penalty events (spam and the conditional AI penalty), yet the
points total 15 < 20, so the section score is 10, not 0, and no TOTAL
FAILURE finding is emitted - the event-count reading of the zero-out rule is
false for `main.py`. -/
theorem claim_C1_counterexample :
    0 < spamPenaltyMain exSpamOnce
  ∧ 0 < aiPenaltyMain exSpamOnce
  ∧ (check_integrity_compliance exSpamOnce).1 = 10
  ∧ (⟨Severity.Missing, Tag.totalFailure⟩ : Finding)
      ∉ (check_integrity_compliance exSpamOnce).2 := by
  have h1 : spam_matches exSpamOnce = 1 := by decide
  have h2 : repetitive_matches exSpamOnce = 0 := by decide
  have h3 : is_ai_disclosed exSpamOnce = false := by decide
  have hsp : spamPenaltyMain exSpamOnce = 5 := by rw [spamPenaltyMain, h1]; decide
  have hrp : repPenaltyMain exSpamOnce = 0 := by rw [repPenaltyMain, h2]; decide
  have hap : aiPenaltyMain exSpamOnce = 10 := by
    rw [aiPenaltyMain, h3, hsp, hrp]; decide
  have htp : totalPenaltyMain exSpamOnce = 15 := by
    rw [totalPenaltyMain, hsp, hrp, hap]
  have hn20 : ¬(20 ≤ totalPenaltyMain exSpamOnce) := by omega
  refine ⟨by omega, by omega, ?_, ?_⟩
  · rw [check_integrity_score, if_neg hn20, htp]
    rw [show ((15 : ℕ) : ℚ) = 15 from by norm_num,
      show (25 : ℚ) - 15 = 10 from by norm_num]
    exact max_eq_right (by norm_num)
  · rw [check_integrity_findings]
    simp [h1, h2, h3, hsp, hrp, hn20]

theorem penaltyCountS_exSpamOnce : penaltyCountS exSpamOnce 2 = 3 := by
  have h1 : spamCuesS exSpamOnce = 1 := by decide
  have h2 : repCuesS exSpamOnce = 0 := by decide
  have h3 : aiDisclosedS exSpamOnce = false := by decide
  have hs : scoreAfterRepS exSpamOnce = 15 := by
    rw [scoreAfterRepS, h2, scoreAfterSpamS, h1]
    norm_num
  have hf : aiPenaltyFiresS exSpamOnce = true := by
    rw [aiPenaltyFiresS, h3, hs]
    norm_num
  rw [penaltyCountS, pAfterAiS, pAfterRepS, pAfterSpamS, h1, h2, hf]
  norm_num

theorem claim_C1_witness :
    (integrityScoreS exSpamOnce 2 = 0 ∧ STag.totalFailureCue ∈ integrityCuesS exSpamOnce 2)
  ∧ ((check_integrity_compliance exSpamTwice).1 = 0
      ∧ (⟨Severity.Missing, Tag.totalFailure⟩ : Finding)
          ∈ (check_integrity_compliance exSpamTwice).2) :=
  ⟨(claim_C1_amended exSpamOnce 2).1 (penaltyCountS_exSpamOnce ▸ by norm_num),
   (claim_C1_amended exSpamTwice 0).2 (by decide)⟩

/-- C2 (amended): the conditional AI-disclosure penalty.  In `main.py` the
rule is exactly as claimed, with spam and repetitive as the prior events
(there is no thin-content penalty): disclosure yields a Good finding and no
penalty; no disclosure yields a Missing finding, plus 10 extra penalty
points and a critical finding exactly when a prior penalty fired.  In
`streamlit_app.py` the additional penalty is 5 points, not 10, and only spam
and repetitive count as prior events - the thin-content check runs after the
AI check and cannot enable the AI penalty. -/
theorem claim_C2_amended (cl : List Char) (wc : Nat) :
    (is_ai_disclosed cl = true →
      aiPenaltyMain cl = 0
        ∧ (⟨Severity.Good, Tag.aiDisclosedGood⟩ : Finding)
            ∈ (check_integrity_compliance cl).2)
  ∧ (is_ai_disclosed cl = false →
      (⟨Severity.Missing, Tag.aiNotDisclosed⟩ : Finding)
          ∈ (check_integrity_compliance cl).2
        ∧ (0 < spamPenaltyMain cl + repPenaltyMain cl →
            aiPenaltyMain cl = 10
              ∧ (⟨Severity.Missing, Tag.aiCritical⟩ : Finding)
                  ∈ (check_integrity_compliance cl).2)
        ∧ (spamPenaltyMain cl + repPenaltyMain cl = 0 →
            aiPenaltyMain cl = 0
              ∧ (⟨Severity.Missing, Tag.aiCritical⟩ : Finding)
                  ∉ (check_integrity_compliance cl).2))
  ∧ (aiDisclosedS cl = true →
      scoreAfterAiS cl = scoreAfterRepS cl
        ∧ STag.aiDisclosedCue ∈ integrityCuesS cl wc)
  ∧ (aiDisclosedS cl = false → (0 < spamCuesS cl ∨ 0 < repCuesS cl) →
      scoreAfterAiS cl = scoreAfterRepS cl - 5
        ∧ STag.aiTransparencyMiss ∈ integrityMissingS cl wc)
  ∧ (aiDisclosedS cl = false → spamCuesS cl = 0 → repCuesS cl = 0 →
      scoreAfterAiS cl = scoreAfterRepS cl
        ∧ STag.aiTransparencyMiss ∉ integrityMissingS cl wc) := by
  refine ⟨?_, ?_, ?_, ?_, ?_⟩
  · intro h
    constructor
    · rw [aiPenaltyMain, h]
      rfl
    · rw [check_integrity_findings, h]
      simp
  · intro h
    refine ⟨?_, ?_, ?_⟩
    · rw [check_integrity_findings, h]
      simp
    · intro hp
      constructor
      · rw [aiPenaltyMain, h]
        simp [hp]
      · rw [check_integrity_findings, h]
        simp [hp]
    · intro hp
      have hpn : ¬(0 < spamPenaltyMain cl + repPenaltyMain cl) := by omega
      constructor
      · rw [aiPenaltyMain, h]
        simp [hpn]
      · rw [check_integrity_findings, h, if_neg hpn]
        split_ifs <;> simp_all
  · intro h
    have hf : aiPenaltyFiresS cl = false := by
      rw [aiPenaltyFiresS, h]
      rfl
    constructor
    · rw [scoreAfterAiS, hf]
      rfl
    · rw [integrityCuesS, hf, h]
      simp
  · intro h hev
    have hlt : scoreAfterRepS cl < 20 := (scoreAfterRepS_lt_iff cl).mpr hev
    have hf : aiPenaltyFiresS cl = true := by
      rw [aiPenaltyFiresS, h]
      simp [hlt]
    constructor
    · rw [scoreAfterAiS, hf]
      rfl
    · rw [integrityMissingS, hf]
      simp
  · intro h h1 h2
    have hge : ¬(scoreAfterRepS cl < 20) := by
      rw [scoreAfterRepS_lt_iff]
      rintro (hx | hx) <;> omega
    have hf : aiPenaltyFiresS cl = false := by
      rw [aiPenaltyFiresS, h]
      simp [hge]
    constructor
    · rw [scoreAfterAiS, hf]
      rfl
    · rw [integrityMissingS, hf, h1, h2]
      split_ifs <;> simp_all

/-- C2 (counterexample): in `streamlit_app.py`, thin content (a penalty event
the claim lists as prior step 3) together with undisclosed AI does not incur
the extra penalty: `"hello there friend"` is below 300 words with no AI
disclosure, yet the integrity score is 15 (only the thin-content 5 was
subtracted, no extra 10) and no AI-transparency penalty finding is emitted. -/
theorem claim_C2_counterexample :
    aiDisclosedS exThinClean = false
  ∧ wordCount exThinClean < 300
  ∧ integrityScoreS exThinClean (wordCount exThinClean) = 15
  ∧ STag.aiTransparencyMiss ∉ integrityMissingS exThinClean (wordCount exThinClean) := by
  have h1 : spamCuesS exThinClean = 0 := by decide
  have h2 : repCuesS exThinClean = 0 := by decide
  have h3 : aiDisclosedS exThinClean = false := by decide
  have h4 : wordCount exThinClean = 3 := by decide
  have hs : scoreAfterRepS exThinClean = 20 := by
    rw [scoreAfterRepS, h2, scoreAfterSpamS, h1]
    norm_num
  have hf : aiPenaltyFiresS exThinClean = false := by
    rw [aiPenaltyFiresS, h3, hs]
    norm_num
  have hpc : penaltyCountS exThinClean (wordCount exThinClean) = 1 := by
    rw [penaltyCountS, pAfterAiS, pAfterRepS, pAfterSpamS, h1, h2, hf, h4]
    norm_num
  have hn2 : ¬(2 ≤ penaltyCountS exThinClean (wordCount exThinClean)) := by omega
  have hth : wordCount exThinClean < 300 := by omega
  have hsa : scoreAfterAiS exThinClean = 20 := by
    rw [scoreAfterAiS, hf, hs]
    rfl
  have hst : scoreAfterThinS exThinClean (wordCount exThinClean) = 15 := by
    rw [scoreAfterThinS, if_pos hth, hsa]
    norm_num
  refine ⟨h3, by omega, ?_, ?_⟩
  · rw [integrityScoreS, if_neg hn2, hst, if_neg (show ¬((15 : ℚ) < 0) by norm_num)]
    exact min_eq_right (by norm_num)
  · rw [integrityMissingS, hf, h1, h2, h4]
    simp

/-- C6 (amended): density tiering.  In `main.py` the density sub-check awards
15 points (not 10) with Good in the 1-3 band, 10 points (not 5) with Warn in
the 0.5-1 and 3-4 side bands, and 0 with Missing above 4 or at 0.5 and
below, so the severity order Missing, Warn, Good, Missing across the
0.5/1/3/4 thresholds holds as claimed.  `streamlit_app.py` uses a 0.5-2.5
target band worth 10, with 5 below and 2 above. -/
theorem claim_C6_amended (d : ℚ) (cl kl : List Char) (wc : Nat) :
    (1 ≤ d → d ≤ 3 → densityStage d = (15, ⟨Severity.Good, Tag.densityOptimal⟩))
  ∧ ((0.5 < d ∧ d < 1) ∨ (3 < d ∧ d ≤ 4) →
      densityStage d = (10, ⟨Severity.Warn, Tag.densitySub⟩))
  ∧ (4 < d → densityStage d = (0, ⟨Severity.Missing, Tag.densityHigh⟩))
  ∧ (d ≤ 0.5 → densityStage d = (0, ⟨Severity.Missing, Tag.densityLow⟩))
  ∧ (0 < wc → 0.5 ≤ densityValS cl kl wc → densityValS cl kl wc ≤ 2.5 →
      densityScoreS cl kl wc = 10)
  ∧ (0 < wc → densityValS cl kl wc < 0.5 → densityScoreS cl kl wc = 5)
  ∧ (0 < wc → 2.5 < densityValS cl kl wc → densityScoreS cl kl wc = 2) := by
  refine ⟨?_, ?_, ?_, ?_, ?_, ?_, ?_⟩
  · intro h1 h3
    rw [densityStage, if_pos ⟨h1, h3⟩]
  · rintro (⟨ha, hb⟩ | ⟨ha, hb⟩)
    · rw [densityStage, if_neg (by rintro ⟨x1, _⟩; linarith),
        if_pos (Or.inl ⟨ha, hb⟩)]
    · rw [densityStage, if_neg (by rintro ⟨_, x2⟩; linarith),
        if_pos (Or.inr ⟨ha, hb⟩)]
  · intro h4
    rw [densityStage, if_neg (by rintro ⟨_, x⟩; linarith),
      if_neg (by rintro (⟨_, x⟩ | ⟨_, x⟩) <;> linarith), if_pos h4]
  · intro h05
    rw [densityStage, if_neg (by rintro ⟨x, _⟩; linarith),
      if_neg (by rintro (⟨x, _⟩ | ⟨x, _⟩) <;> linarith), if_neg (by linarith)]
  · intro hw ha hb
    rw [densityScoreS, if_pos hw, if_pos ⟨ha, hb⟩]
  · intro hw ha
    rw [densityScoreS, if_pos hw, if_neg (by rintro ⟨x, _⟩; linarith), if_pos ha]
  · intro hw ha
    rw [densityScoreS, if_pos hw, if_neg (by rintro ⟨_, x⟩; linarith),
      if_neg (by linarith)]

theorem densityMain_exFiftyWords :
    densityMain exFiftyWords exFox (wordCount exFiftyWords) = 2 := by
  have h1 : wordCount exFiftyWords = 50 := by decide
  have h2 : keyword_matches exFiftyWords exFox = 1 := by decide
  rw [densityMain, h1, h2, if_pos (by norm_num)]
  norm_num

theorem densityValS_exFiftyWords : densityValS exFiftyWords exFox 50 = 2 := by
  have h2 : keywordMentionsS exFiftyWords exFox = 1 := by decide
  rw [densityValS, h2]
  norm_num

/-- C6 (counterexample): a keyword density of exactly 2% (one `fox` among 50
words) is inside the 1-3 optimal band, and `main.py` awards 15 points for
it, not the 10 points the claim states. -/
theorem claim_C6_counterexample :
    1 ≤ densityMain exFiftyWords exFox (wordCount exFiftyWords)
  ∧ densityMain exFiftyWords exFox (wordCount exFiftyWords) ≤ 3
  ∧ (densityStage (densityMain exFiftyWords exFox (wordCount exFiftyWords))).1 = 15
  ∧ (15 : ℚ) ≠ 10 := by
  rw [densityMain_exFiftyWords]
  refine ⟨by norm_num, by norm_num, ?_, by norm_num⟩
  rw [densityStage, if_pos (by norm_num : (1 : ℚ) ≤ 2 ∧ (2 : ℚ) ≤ 3)]

theorem claim_C6_witness :
    densityStage (densityMain exFiftyWords exFox (wordCount exFiftyWords))
        = (15, ⟨Severity.Good, Tag.densityOptimal⟩)
  ∧ densityStage (7 / 10) = (10, ⟨Severity.Warn, Tag.densitySub⟩)
  ∧ densityStage 5 = (0, ⟨Severity.Missing, Tag.densityHigh⟩)
  ∧ densityStage (3 / 10) = (0, ⟨Severity.Missing, Tag.densityLow⟩)
  ∧ densityScoreS exFiftyWords exFox 50 = 10 :=
  ⟨(claim_C6_amended (densityMain exFiftyWords exFox (wordCount exFiftyWords)) [] [] 0).1
      (by rw [densityMain_exFiftyWords]; norm_num)
      (by rw [densityMain_exFiftyWords]; norm_num),
   (claim_C6_amended (7 / 10) [] [] 0).2.1 (Or.inl (by norm_num)),
   (claim_C6_amended 5 [] [] 0).2.2.1 (by norm_num),
   (claim_C6_amended (3 / 10) [] [] 0).2.2.2.1 (by norm_num),
   (claim_C6_amended 0 exFiftyWords exFox 50).2.2.2.2.1 (by norm_num)
      (by rw [densityValS_exFiftyWords]; norm_num)
      (by rw [densityValS_exFiftyWords]; norm_num)⟩

/-- C7 (amended): the spam penalty.  In `main.py` the formula is exactly the
claimed `min(count x 5, 10)` over summed occurrences, with a Missing finding
recorded exactly when the count is positive.  In `streamlit_app.py` the
deduction is instead a flat 5 points with one penalty event whenever at
least one spam pattern is present (patterns counted by presence, not by
summed occurrences). -/
theorem claim_C7_amended (cl : List Char) (wc : Nat) :
    (0 < spam_matches cl →
      spamPenaltyMain cl = min (spam_matches cl * 5) 10
        ∧ (⟨Severity.Missing, Tag.spamDetected⟩ : Finding)
            ∈ (check_integrity_compliance cl).2)
  ∧ (spam_matches cl = 0 →
      spamPenaltyMain cl = 0
        ∧ (⟨Severity.Missing, Tag.spamDetected⟩ : Finding)
            ∉ (check_integrity_compliance cl).2)
  ∧ (0 < spamCuesS cl →
      scoreAfterSpamS cl = 15 ∧ pAfterSpamS cl = 1
        ∧ STag.spamMiss ∈ integrityMissingS cl wc)
  ∧ (spamCuesS cl = 0 →
      scoreAfterSpamS cl = 20 ∧ pAfterSpamS cl = 0
        ∧ STag.spamMiss ∉ integrityMissingS cl wc) := by
  refine ⟨?_, ?_, ?_, ?_⟩
  · intro h
    constructor
    · rw [spamPenaltyMain, if_pos h]
    · rw [check_integrity_findings, if_pos h]
      simp
  · intro h
    constructor
    · rw [spamPenaltyMain, if_neg (by omega)]
    · rw [check_integrity_findings, if_neg (by omega)]
      split_ifs <;> simp
  · intro h
    refine ⟨?_, ?_, ?_⟩
    · rw [scoreAfterSpamS, if_pos h]
      norm_num
    · rw [pAfterSpamS, if_pos h]
    · rw [integrityMissingS, if_pos h]
      simp
  · intro h
    refine ⟨?_, ?_, ?_⟩
    · rw [scoreAfterSpamS, if_neg (by omega)]
    · rw [pAfterSpamS, if_neg (by omega)]
    · rw [integrityMissingS, if_neg (by omega)]
      split_ifs <;> simp

/-- C7 (counterexample): `"buy now buy now"` has a summed spam occurrence
count of 2, for which the claim requires a deduction of min(2 x 5, 10) = 10;
`streamlit_app.py` deducts only 5. -/
theorem claim_C7_counterexample :
    spamOccurrencesSpecS exSpamTwice = 2
  ∧ scoreAfterSpamS exSpamTwice = 15
  ∧ (20 : ℚ) - scoreAfterSpamS exSpamTwice ≠ ((min (2 * 5) 10 : ℕ) : ℚ) := by
  have h1 : spamOccurrencesSpecS exSpamTwice = 2 := by decide
  have h2 : spamCuesS exSpamTwice = 1 := by decide
  have hs : scoreAfterSpamS exSpamTwice = 15 := by
    rw [scoreAfterSpamS, h2]
    norm_num
  exact ⟨h1, hs, by rw [hs]; norm_num⟩

theorem claim_C7_witness :
    (spamPenaltyMain exSpamOnce = min (spam_matches exSpamOnce * 5) 10
      ∧ (⟨Severity.Missing, Tag.spamDetected⟩ : Finding)
          ∈ (check_integrity_compliance exSpamOnce).2)
  ∧ (spamPenaltyMain exHelloWorld = 0
      ∧ (⟨Severity.Missing, Tag.spamDetected⟩ : Finding)
          ∉ (check_integrity_compliance exHelloWorld).2)
  ∧ (scoreAfterSpamS exSpamOnce = 15 ∧ pAfterSpamS exSpamOnce = 1
      ∧ STag.spamMiss ∈ integrityMissingS exSpamOnce 2)
  ∧ (scoreAfterSpamS exHelloWorld = 20 ∧ pAfterSpamS exHelloWorld = 0
      ∧ STag.spamMiss ∉ integrityMissingS exHelloWorld 2) :=
  ⟨(claim_C7_amended exSpamOnce 2).1 (by decide),
   (claim_C7_amended exHelloWorld 2).2.1 (by decide),
   (claim_C7_amended exSpamOnce 2).2.2.1 (by decide),
   (claim_C7_amended exHelloWorld 2).2.2.2 (by decide)⟩

/-- C8 (amended): experience tiering in `main.py`.  The experience sub-score
is worth 20 points, not 15: at least 5 summed matches award the full 20 with
a Good finding, 1 to 4 matches award half of it (10, not 7.5) with a Warn
finding, and 0 matches award 0 with a Missing finding. -/
theorem claim_C8_amended (cl : List Char) :
    (5 ≤ experience_matches cl →
      experienceStage (experience_matches cl) = (20, ⟨Severity.Good, Tag.expStrong⟩))
  ∧ (1 ≤ experience_matches cl → experience_matches cl ≤ 4 →
      experienceStage (experience_matches cl) = (10, ⟨Severity.Warn, Tag.expSome⟩))
  ∧ (experience_matches cl = 0 →
      experienceStage (experience_matches cl) = (0, ⟨Severity.Missing, Tag.expMissing⟩)) := by
  refine ⟨?_, ?_, ?_⟩
  · intro h
    rw [experienceStage, if_pos h]
  · intro h1 h4
    rw [experienceStage, if_neg (by omega), if_pos h1]
    norm_num
  · intro h0
    rw [experienceStage, if_neg (by omega), if_neg (by omega)]

/-- C8 (counterexample): five occurrences of "i tested" reach the top
experience tier, and `main.py` awards 20 points for it, not the 15 points
the claim states. -/
theorem claim_C8_counterexample :
    experience_matches (lower exFiveTested) = 5
  ∧ (experienceStage (experience_matches (lower exFiveTested))).1 = 20
  ∧ (20 : ℚ) ≠ 15 := by
  have h : experience_matches (lower exFiveTested) = 5 := by decide
  refine ⟨h, ?_, by norm_num⟩
  rw [h, experienceStage, if_pos (by norm_num)]

theorem claim_C8_witness :
    experienceStage (experience_matches (lower exFiveTested))
        = (20, ⟨Severity.Good, Tag.expStrong⟩)
  ∧ experienceStage (experience_matches (lower exOneTested))
        = (10, ⟨Severity.Warn, Tag.expSome⟩)
  ∧ experienceStage (experience_matches [])
        = (0, ⟨Severity.Missing, Tag.expMissing⟩) :=
  ⟨(claim_C8_amended (lower exFiveTested)).1 (by decide),
   (claim_C8_amended (lower exOneTested)).2.1 (by decide) (by decide),
   (claim_C8_amended []).2.2 (by decide)⟩

theorem rawReadingScore_exHi : rawReadingScore exHi = 121.22 := by
  have h1 : (wordsOf exHi).length = 1 := by decide
  have h2 : (sentencesOf exHi).length = 1 := by decide
  have h3 : ((wordsOf exHi).map vowelRuns).sum = 1 := by decide
  rw [rawReadingScore, h1, h2, h3]
  norm_num

theorem claim_C9_witness :
    calculate_reading_ease [] = (100, "N/A")
  ∧ (calculate_reading_ease exHi).1 = max 0 (min 100 (rawReadingScore exHi))
  ∧ (calculate_reading_ease exHi).2 = "Very Easy (5th Grade)" :=
  ⟨(claim_C9 []).1 (Or.inl rfl),
   ((claim_C9 exHi).2 (by decide) (by decide)).1,
   ((claim_C9 exHi).2 (by decide) (by decide)).2.2.2.2
     (by rw [rawReadingScore_exHi]; norm_num)⟩

theorem claim_C2_witness :
    (aiPenaltyMain exDisclosed = 0
      ∧ (⟨Severity.Good, Tag.aiDisclosedGood⟩ : Finding)
          ∈ (check_integrity_compliance exDisclosed).2)
  ∧ (⟨Severity.Missing, Tag.aiNotDisclosed⟩ : Finding)
      ∈ (check_integrity_compliance exSpamOnce).2
  ∧ (aiPenaltyMain exSpamOnce = 10
      ∧ (⟨Severity.Missing, Tag.aiCritical⟩ : Finding)
          ∈ (check_integrity_compliance exSpamOnce).2)
  ∧ (aiPenaltyMain exHelloWorld = 0
      ∧ (⟨Severity.Missing, Tag.aiCritical⟩ : Finding)
          ∉ (check_integrity_compliance exHelloWorld).2)
  ∧ (scoreAfterAiS exDisclosed = scoreAfterRepS exDisclosed
      ∧ STag.aiDisclosedCue ∈ integrityCuesS exDisclosed 2)
  ∧ (scoreAfterAiS exSpamOnce = scoreAfterRepS exSpamOnce - 5
      ∧ STag.aiTransparencyMiss ∈ integrityMissingS exSpamOnce 2)
  ∧ (scoreAfterAiS exHelloWorld = scoreAfterRepS exHelloWorld
      ∧ STag.aiTransparencyMiss ∉ integrityMissingS exHelloWorld 2) :=
  ⟨(claim_C2_amended exDisclosed 2).1 (by decide),
   ((claim_C2_amended exSpamOnce 2).2.1 (by decide)).1,
   ((claim_C2_amended exSpamOnce 2).2.1 (by decide)).2.1 (by decide),
   ((claim_C2_amended exHelloWorld 2).2.1 (by decide)).2.2 (by decide),
   (claim_C2_amended exDisclosed 2).2.2.1 (by decide),
   (claim_C2_amended exSpamOnce 2).2.2.2.1 (by decide) (by decide),
   (claim_C2_amended exHelloWorld 2).2.2.2.2 (by decide) (by decide) (by decide)⟩

end ContentAnalyzer
